import Mathlib

/-!
Verification of the presentation-window command layer in
`src/client/src-tauri/src/main.rs`.

The file is a shallow embedding of the four Tauri commands
(`open_presentation_window`, `close_presentation_window`,
`update_presentation_window`, `is_presentation_window_open`).

Modelling choices, all read off the source:
* The host window manager's state is the list of existing webview
  windows (`List WebviewWindow`); `get_webview_window` is a lookup by
  label, as in Tauri.
* Host calls that can fail in the source (`build`, `close`,
  `set_always_on_top`, `set_fullscreen`) are driven by an explicit
  `Host` oracle: `none` means the host call succeeds, `some e` means it
  fails and (after `map_err(|e| e.to_string())`) surfaces the string
  `e` to the caller.
* The `#[cfg(debug_assertions)]` / `#[cfg(not(debug_assertions))]`
  build variants of `open` differ only in `.decorations(true)` versus
  `.decorations(false)`; the flag `dbg : Bool` selects the variant.
* Each command returns its `Result<(), String>` together with the host
  state after the call.
-/

/-- Model of `PresentationWindowConfig` from `main.rs` (three fields, same names). -/
structure PresentationWindowConfig where
  always_on_top : Bool
  background_color : String
  fullscreen : Bool
  deriving Repr, DecidableEq

/-- A webview window as configured by the source's `WebviewWindowBuilder`
chain: label, content URL, and the builder-set properties
(`title`, `inner_size`, `resizable`, `decorations`, `always_on_top`,
`fullscreen`).  The source sets no other property of the window. -/
structure WebviewWindow where
  label : String
  url : String
  title : String
  innerWidth : Nat
  innerHeight : Nat
  resizable : Bool
  decorations : Bool
  always_on_top : Bool
  fullscreen : Bool
  deriving Repr, DecidableEq

/-- Outcomes of the fallible host-manager calls made by the source.
`none` = success; `some e` = the host call fails and the command maps
the error to the string `e` via `map_err(|e| e.to_string())`. -/
structure Host where
  buildResult : Option String
  closeResult : Option String
  setAlwaysOnTopResult : Option String
  setFullscreenResult : Option String
  deriving Repr, DecidableEq

/-- A host whose every call succeeds. -/
def Host.ok : Host := ⟨none, none, none, none⟩

/-- Model of `app_handle.get_webview_window(label)`: look a window up by label. -/
def get_webview_window (ws : List WebviewWindow) (label : String) :
    Option WebviewWindow :=
  ws.find? (fun w => w.label == label)

/-- The window value produced by the source's builder chain in
`open_presentation_window`: fixed label `"presentation"`, fixed URL
`"index.html?mode=presentation"`, title `"Whiteboard - Presentation"`,
inner size 1920 by 1080, resizable, decorations on exactly in the debug
build variant, and `always_on_top` / `fullscreen` taken from `config`. -/
def builtPresentationWindow (dbg : Bool) (config : PresentationWindowConfig) :
    WebviewWindow :=
  { label := "presentation"
    url := "index.html?mode=presentation"
    title := "Whiteboard - Presentation"
    innerWidth := 1920
    innerHeight := 1080
    resizable := true
    decorations := dbg
    always_on_top := config.always_on_top
    fullscreen := config.fullscreen }

/-- Model of `open_presentation_window` from `main.rs`: if a window labelled
`"presentation"` exists, fail with `"Presentation window already open"`;
otherwise run the builder (which may fail at `.build()`), adding the
new window to the host state on success. -/
def open_presentation_window (host : Host) (dbg : Bool)
    (ws : List WebviewWindow) (config : PresentationWindowConfig) :
    Except String Unit × List WebviewWindow :=
  match get_webview_window ws "presentation" with
  | some _ => (.error "Presentation window already open", ws)
  | none =>
    match host.buildResult with
    | some e => (.error e, ws)
    | none => (.ok (), ws ++ [builtPresentationWindow dbg config])

/-- Remove the window labelled `label` from the host state (the effect
of a successful `window.close()` on the looked-up window). -/
def removeWindow (ws : List WebviewWindow) (label : String) :
    List WebviewWindow :=
  ws.filter (fun w => !(w.label == label))

/-- Model of `close_presentation_window` from `main.rs`: look the window up; if
absent fail with `"Presentation window not found"`; otherwise ask the
host to close it, surfacing the host's error string on failure. -/
def close_presentation_window (host : Host) (ws : List WebviewWindow) :
    Except String Unit × List WebviewWindow :=
  match get_webview_window ws "presentation" with
  | some _ =>
    match host.closeResult with
    | some e => (.error e, ws)
    | none => (.ok (), removeWindow ws "presentation")
  | none => (.error "Presentation window not found", ws)

/-- Apply `f` to every window labelled `label` (the effect of a
property setter called on the window looked up by that label). -/
def setWindowProp (ws : List WebviewWindow) (label : String)
    (f : WebviewWindow → WebviewWindow) : List WebviewWindow :=
  ws.map (fun w => if w.label == label then f w else w)

/-- Model of `update_presentation_window` from `main.rs`: look the window up; if
absent fail with `"Presentation window not found"`; otherwise call
`set_always_on_top(config.always_on_top)` then
`set_fullscreen(config.fullscreen)`, each early-returning the host's
error string on failure (`?` after `map_err`). -/
def update_presentation_window (host : Host) (ws : List WebviewWindow)
    (config : PresentationWindowConfig) :
    Except String Unit × List WebviewWindow :=
  match get_webview_window ws "presentation" with
  | none => (.error "Presentation window not found", ws)
  | some _ =>
    match host.setAlwaysOnTopResult with
    | some e => (.error e, ws)
    | none =>
      let ws1 := setWindowProp ws "presentation"
        (fun w => { w with always_on_top := config.always_on_top })
      match host.setFullscreenResult with
      | some e => (.error e, ws1)
      | none =>
        (.ok (), setWindowProp ws1 "presentation"
          (fun w => { w with fullscreen := config.fullscreen }))

/-- Model of `is_presentation_window_open` from `main.rs`:
`app_handle.get_webview_window("presentation").is_some()`. -/
def is_presentation_window_open (ws : List WebviewWindow) : Bool :=
  (get_webview_window ws "presentation").isSome

/-- One front-end command invocation, with the host oracle and (for
`open`) the build variant fixed per call. -/
inductive Cmd where
  | openW (host : Host) (dbg : Bool) (config : PresentationWindowConfig)
  | closeW (host : Host)
  | updateW (host : Host) (config : PresentationWindowConfig)
  | isOpenW
  deriving Repr

/-- The host state after serially executing one command (results are
dropped; `is_presentation_window_open` does not change the state). -/
def stepCmd (ws : List WebviewWindow) : Cmd → List WebviewWindow
  | .openW host dbg config => (open_presentation_window host dbg ws config).2
  | .closeW host => (close_presentation_window host ws).2
  | .updateW host config => (update_presentation_window host ws config).2
  | .isOpenW => ws

/-- The host state after serially executing a sequence of commands. -/
def runCmds (ws : List WebviewWindow) : List Cmd → List WebviewWindow
  | [] => ws
  | c :: cs => runCmds (stepCmd ws c) cs

/-- Number of windows labelled `"presentation"` in the host state. -/
def presentationCount (ws : List WebviewWindow) : Nat :=
  ws.countP (fun w => w.label == "presentation")

/-! ## Helper lemmas -/

/-- If the lookup finds no presentation window, none is in the state. -/
lemma presentationCount_eq_zero {ws : List WebviewWindow}
    (h : get_webview_window ws "presentation" = none) :
    presentationCount ws = 0 := by
  rw [get_webview_window, List.find?_eq_none] at h
  rw [presentationCount, List.countP_eq_zero]
  exact h

/-- Closing the presentation window removes every window so labelled. -/
lemma presentationCount_removeWindow (ws : List WebviewWindow) :
    presentationCount (removeWindow ws "presentation") = 0 := by
  rw [presentationCount, removeWindow, List.countP_eq_zero]
  intro w hw
  have h := (List.mem_filter.mp hw).2
  simpa using h

/-- A label-preserving property setter does not change how many
presentation windows exist. -/
lemma presentationCount_setWindowProp (ws : List WebviewWindow)
    (label : String) (f : WebviewWindow → WebviewWindow)
    (hf : ∀ w, (f w).label = w.label) :
    presentationCount (setWindowProp ws label f) = presentationCount ws := by
  rw [presentationCount, setWindowProp, List.countP_map, presentationCount]
  induction ws with
  | nil => rfl
  | cons w ws ih =>
    simp only [List.countP_cons, ih, Function.comp]
    by_cases hl : (w.label == label) = true
    · simp [hl, hf]
    · simp [hl]

/-- After a label-preserving setter, the looked-up window is the setter
applied to the window the lookup found before. -/
lemma get_setWindowProp (ws : List WebviewWindow) (label : String)
    (f : WebviewWindow → WebviewWindow)
    (hf : ∀ w, (f w).label = w.label) :
    get_webview_window (setWindowProp ws label f) label
      = (get_webview_window ws label).map f := by
  rw [get_webview_window, get_webview_window, setWindowProp]
  induction ws with
  | nil => rfl
  | cons w ws ih =>
    by_cases hl : (w.label == label) = true
    · simp only [List.map_cons, if_pos hl]
      rw [List.find?_cons_of_pos (p := fun x : WebviewWindow => x.label == label) _
          (by simpa [hf] using hl),
        List.find?_cons_of_pos (p := fun x : WebviewWindow => x.label == label) _ hl]
      rfl
    · simp only [List.map_cons, if_neg hl]
      rw [List.find?_cons_of_neg (p := fun x : WebviewWindow => x.label == label) _ hl,
        List.find?_cons_of_neg (p := fun x : WebviewWindow => x.label == label) _ hl, ih]

/-- After removing every presentation window, the lookup finds none. -/
lemma get_removeWindow (ws : List WebviewWindow) :
    get_webview_window (removeWindow ws "presentation") "presentation"
      = none := by
  rw [get_webview_window, List.find?_eq_none]
  intro w hw
  have h := (List.mem_filter.mp hw).2
  simpa using h

/-- Setting always-on-top does not change the presentation-window count. -/
lemma presentationCount_set_aot (ws : List WebviewWindow) (b : Bool) :
    presentationCount (setWindowProp ws "presentation"
      (fun w => { w with always_on_top := b })) = presentationCount ws :=
  presentationCount_setWindowProp _ _ _ (fun _ => rfl)

/-- Setting fullscreen does not change the presentation-window count. -/
lemma presentationCount_set_fs (ws : List WebviewWindow) (b : Bool) :
    presentationCount (setWindowProp ws "presentation"
      (fun w => { w with fullscreen := b })) = presentationCount ws :=
  presentationCount_setWindowProp _ _ _ (fun _ => rfl)

/-- Each command preserves the at-most-one-presentation-window bound. -/
lemma stepCmd_preserves (ws : List WebviewWindow) (c : Cmd)
    (h : presentationCount ws ≤ 1) :
    presentationCount (stepCmd ws c) ≤ 1 := by
  cases c with
  | openW host dbg config =>
    simp only [stepCmd, open_presentation_window]
    cases hfind : get_webview_window ws "presentation" with
    | some w => exact h
    | none =>
      cases host.buildResult with
      | some e => exact h
      | none =>
        have h0 := presentationCount_eq_zero hfind
        rw [presentationCount] at h0
        rw [presentationCount, List.countP_append, h0]
        simp [builtPresentationWindow]
  | closeW host =>
    simp only [stepCmd, close_presentation_window]
    cases hfind : get_webview_window ws "presentation" with
    | some w =>
      cases host.closeResult with
      | some e => exact h
      | none => simp [presentationCount_removeWindow]
    | none => exact h
  | updateW host config =>
    simp only [stepCmd]
    cases hfind : get_webview_window ws "presentation" with
    | none =>
      simp only [update_presentation_window, hfind]
      exact h
    | some w =>
      cases hsat : host.setAlwaysOnTopResult with
      | some e =>
        simp only [update_presentation_window, hfind, hsat]
        exact h
      | none =>
        cases hsf : host.setFullscreenResult with
        | some e =>
          simp only [update_presentation_window, hfind, hsat, hsf]
          rw [presentationCount_set_aot]
          exact h
        | none =>
          simp only [update_presentation_window, hfind, hsat, hsf]
          rw [presentationCount_set_fs, presentationCount_set_aot]
          exact h
  | isOpenW => exact h

/-- Running any command sequence preserves the bound. -/
lemma runCmds_preserves (cmds : List Cmd) :
    ∀ ws : List WebviewWindow, presentationCount ws ≤ 1 →
      presentationCount (runCmds ws cmds) ≤ 1 := by
  induction cmds with
  | nil => intro ws h; exact h
  | cons c cs ih => intro ws h; exact ih _ (stepCmd_preserves ws c h)

/-! ## Concrete values used by witnesses and counterexamples -/

/-- A sample config with a white background. -/
def cfgA : PresentationWindowConfig :=
  { always_on_top := true, background_color := "#ffffff", fullscreen := false }

/-- A sample config differing from `cfgA` only in the background color. -/
def cfgB : PresentationWindowConfig :=
  { always_on_top := true, background_color := "#000000", fullscreen := false }

/-! ## Claim theorems -/

/-- C1: for every serial sequence of open/close/update/isOpen calls, starting
from the initial state with no windows, at most one window labelled
"presentation" exists at every observation point; moreover, open changes the
state only when the lookup by that name finds none, in which case it appends
the single newly built window. -/
theorem at_most_one_presentation_window :
    (∀ cmds : List Cmd, presentationCount (runCmds [] cmds) ≤ 1) ∧
    (∀ (host : Host) (dbg : Bool) (ws : List WebviewWindow)
        (config : PresentationWindowConfig),
      (open_presentation_window host dbg ws config).2 = ws ∨
      (get_webview_window ws "presentation" = none ∧
        (open_presentation_window host dbg ws config).2
          = ws ++ [builtPresentationWindow dbg config])) := by
  constructor
  · intro cmds
    exact runCmds_preserves cmds [] (by simp [presentationCount])
  · intro host dbg ws config
    cases hfind : get_webview_window ws "presentation" with
    | some w =>
      left
      simp [open_presentation_window, hfind]
    | none =>
      cases hbuild : host.buildResult with
      | some e =>
        left
        simp [open_presentation_window, hfind, hbuild]
      | none =>
        right
        exact ⟨rfl, by simp [open_presentation_window, hfind, hbuild]⟩

/-- C2: open on a state that already has a "presentation" window returns the
WindowAlreadyOpen error string and leaves the whole state (in particular the
existing window) unchanged. -/
theorem open_fails_when_already_open (host : Host) (dbg : Bool)
    (ws : List WebviewWindow) (config : PresentationWindowConfig)
    (w : WebviewWindow)
    (h : get_webview_window ws "presentation" = some w) :
    open_presentation_window host dbg ws config
      = (.error "Presentation window already open", ws) := by
  simp [open_presentation_window, h]

/-- Witness for the C2 theorem at a concrete state and config. -/
theorem open_fails_when_already_open_witness :
    open_presentation_window Host.ok true [builtPresentationWindow true cfgA] cfgB
      = (.error "Presentation window already open",
        [builtPresentationWindow true cfgA]) :=
  open_fails_when_already_open Host.ok true _ cfgB
    (builtPresentationWindow true cfgA) (by rfl)

/-- C5: when no "presentation" window exists and the host build succeeds,
open succeeds and appends exactly one new "presentation" window whose URL is
the main page with the presentation-mode query parameter, sized 1920 by
1080, resizable, titled "Whiteboard - Presentation", with decorations
exactly in the debug build variant, and with always-on-top and fullscreen
taken from the config. -/
theorem open_creates_configured_window (host : Host) (dbg : Bool)
    (ws : List WebviewWindow) (config : PresentationWindowConfig)
    (habsent : get_webview_window ws "presentation" = none)
    (hbuild : host.buildResult = none) :
    open_presentation_window host dbg ws config
      = (.ok (), ws ++ [builtPresentationWindow dbg config]) ∧
    presentationCount (open_presentation_window host dbg ws config).2 = 1 ∧
    (builtPresentationWindow dbg config).url = "index.html?mode=presentation" ∧
    (builtPresentationWindow dbg config).innerWidth = 1920 ∧
    (builtPresentationWindow dbg config).innerHeight = 1080 ∧
    (builtPresentationWindow dbg config).resizable = true ∧
    (builtPresentationWindow dbg config).title = "Whiteboard - Presentation" ∧
    (builtPresentationWindow dbg config).decorations = dbg ∧
    (builtPresentationWindow dbg config).always_on_top = config.always_on_top ∧
    (builtPresentationWindow dbg config).fullscreen = config.fullscreen := by
  have hopen : open_presentation_window host dbg ws config
      = (.ok (), ws ++ [builtPresentationWindow dbg config]) := by
    simp [open_presentation_window, habsent, hbuild]
  refine ⟨hopen, ?_, rfl, rfl, rfl, rfl, rfl, rfl, rfl, rfl⟩
  rw [hopen]
  have h0 := presentationCount_eq_zero habsent
  rw [presentationCount] at h0
  rw [presentationCount, List.countP_append, h0]
  simp [builtPresentationWindow]

/-- Witness for the C5 theorem at a concrete state and config. -/
theorem open_creates_configured_window_witness :
    open_presentation_window Host.ok false [] cfgA
      = (.ok (), [builtPresentationWindow false cfgA]) ∧
    presentationCount (open_presentation_window Host.ok false [] cfgA).2 = 1 :=
  ⟨(open_creates_configured_window Host.ok false [] cfgA rfl rfl).1,
    (open_creates_configured_window Host.ok false [] cfgA rfl rfl).2.1⟩

/-- C9: the caller-visible precondition-failure strings are exactly
"Presentation window already open" (open, window exists) and
"Presentation window not found" (close and update, window absent); close and
update share the same not-found string. -/
theorem precondition_error_strings (host : Host) (dbg : Bool)
    (ws : List WebviewWindow) (config : PresentationWindowConfig) :
    ((∃ w, get_webview_window ws "presentation" = some w) →
      (open_presentation_window host dbg ws config).1
        = .error "Presentation window already open") ∧
    (get_webview_window ws "presentation" = none →
      (close_presentation_window host ws).1
          = .error "Presentation window not found" ∧
      (update_presentation_window host ws config).1
          = .error "Presentation window not found") := by
  constructor
  · rintro ⟨w, hw⟩
    simp [open_presentation_window, hw]
  · intro hnone
    exact ⟨by simp [close_presentation_window, hnone],
      by simp [update_presentation_window, hnone]⟩

/-- Witness for the C9 theorem at concrete states. -/
theorem precondition_error_strings_witness :
    (open_presentation_window Host.ok true
        [builtPresentationWindow true cfgA] cfgA).1
      = .error "Presentation window already open" ∧
    (close_presentation_window Host.ok []).1
      = .error "Presentation window not found" ∧
    (update_presentation_window Host.ok [] cfgA).1
      = .error "Presentation window not found" := by
  refine ⟨(precondition_error_strings Host.ok true _ cfgA).1 ⟨_, rfl⟩, ?_, ?_⟩
  · exact ((precondition_error_strings Host.ok true [] cfgA).2 rfl).1
  · exact ((precondition_error_strings Host.ok true [] cfgA).2 rfl).2

/-- Setting always-on-top maps the looked-up presentation window. -/
lemma get_set_aot (ws : List WebviewWindow) (b : Bool) :
    get_webview_window (setWindowProp ws "presentation"
        (fun w => { w with always_on_top := b })) "presentation"
      = (get_webview_window ws "presentation").map
          (fun w => { w with always_on_top := b }) :=
  get_setWindowProp _ _ _ (fun _ => rfl)

/-- Setting fullscreen maps the looked-up presentation window. -/
lemma get_set_fs (ws : List WebviewWindow) (b : Bool) :
    get_webview_window (setWindowProp ws "presentation"
        (fun w => { w with fullscreen := b })) "presentation"
      = (get_webview_window ws "presentation").map
          (fun w => { w with fullscreen := b }) :=
  get_setWindowProp _ _ _ (fun _ => rfl)

/-- A host that fails only the window-destruction call. -/
def hostCloseFail : Host :=
  { buildResult := none, closeResult := some "boom",
    setAlwaysOnTopResult := none, setFullscreenResult := none }

/-- A host that fails only the set-fullscreen call. -/
def hostFsFail : Host :=
  { buildResult := none, closeResult := none,
    setAlwaysOnTopResult := none, setFullscreenResult := some "fs failed" }

/-- A host that fails only the set-always-on-top call. -/
def hostAotFail : Host :=
  { buildResult := none, closeResult := none,
    setAlwaysOnTopResult := some "aot failed", setFullscreenResult := none }

/-- C3: when a "presentation" window exists and the host accepts both
mutations, update succeeds and the window's always-on-top and fullscreen
flags become those of the config (its other fields unchanged); the supplied
background color has no effect on the result or the state; when no such
window exists, update fails with the not-found string and changes
nothing. -/
theorem update_sets_flags_ignores_background (host : Host)
    (ws : List WebviewWindow) (config : PresentationWindowConfig) :
    (∀ w, get_webview_window ws "presentation" = some w →
      host.setAlwaysOnTopResult = none → host.setFullscreenResult = none →
      (update_presentation_window host ws config).1 = .ok () ∧
      get_webview_window (update_presentation_window host ws config).2
          "presentation"
        = some { w with always_on_top := config.always_on_top,
                        fullscreen := config.fullscreen }) ∧
    (∀ c : PresentationWindowConfig,
      c.always_on_top = config.always_on_top →
      c.fullscreen = config.fullscreen →
      update_presentation_window host ws c
        = update_presentation_window host ws config) ∧
    (get_webview_window ws "presentation" = none →
      update_presentation_window host ws config
        = (.error "Presentation window not found", ws)) := by
  refine ⟨?_, ?_, ?_⟩
  · intro w hw hsat hsf
    have hu : update_presentation_window host ws config
        = (.ok (), setWindowProp (setWindowProp ws "presentation"
            (fun x => { x with always_on_top := config.always_on_top }))
            "presentation"
            (fun x => { x with fullscreen := config.fullscreen })) := by
      simp [update_presentation_window, hw, hsat, hsf]
    rw [hu]
    refine ⟨rfl, ?_⟩
    rw [get_set_fs, get_set_aot, hw]
    rfl
  · intro c hat hfs
    simp only [update_presentation_window, hat, hfs]
  · intro hnone
    simp [update_presentation_window, hnone]

/-- Witness for the C3 theorem at concrete states and configs. -/
theorem update_sets_flags_ignores_background_witness :
    (update_presentation_window Host.ok
        [builtPresentationWindow true cfgA] cfgB).1 = .ok () ∧
    update_presentation_window Host.ok [] cfgA
      = (.error "Presentation window not found", []) :=
  ⟨((update_sets_flags_ignores_background Host.ok
        [builtPresentationWindow true cfgA] cfgB).1 _ rfl rfl rfl).1,
    (update_sets_flags_ignores_background Host.ok [] cfgA).2.2 rfl⟩

/-- C4: close succeeds and removes the "presentation" window when it exists
and the host destruction call succeeds; fails with the not-found string,
changing nothing, when it does not exist; and surfaces the host's error
string when the host reports a destruction failure. -/
theorem close_spec (host : Host) (ws : List WebviewWindow) :
    (∀ w, get_webview_window ws "presentation" = some w →
      host.closeResult = none →
      close_presentation_window host ws
          = (.ok (), removeWindow ws "presentation") ∧
      get_webview_window (close_presentation_window host ws).2
          "presentation" = none) ∧
    (get_webview_window ws "presentation" = none →
      close_presentation_window host ws
        = (.error "Presentation window not found", ws)) ∧
    (∀ w e, get_webview_window ws "presentation" = some w →
      host.closeResult = some e →
      (close_presentation_window host ws).1 = .error e) := by
  refine ⟨?_, ?_, ?_⟩
  · intro w hw hc
    have hcl : close_presentation_window host ws
        = (.ok (), removeWindow ws "presentation") := by
      simp [close_presentation_window, hw, hc]
    exact ⟨hcl, by rw [hcl]; exact get_removeWindow ws⟩
  · intro hnone
    simp [close_presentation_window, hnone]
  · intro w e hw hc
    simp [close_presentation_window, hw, hc]

/-- Witness for the C4 theorem at concrete states. -/
theorem close_spec_witness :
    close_presentation_window Host.ok [builtPresentationWindow true cfgA]
      = (.ok (), removeWindow [builtPresentationWindow true cfgA]
          "presentation") ∧
    close_presentation_window Host.ok []
      = (.error "Presentation window not found", []) ∧
    (close_presentation_window hostCloseFail
        [builtPresentationWindow true cfgA]).1 = .error "boom" :=
  ⟨((close_spec Host.ok [builtPresentationWindow true cfgA]).1 _ rfl rfl).1,
    (close_spec Host.ok []).2.1 rfl,
    (close_spec hostCloseFail [builtPresentationWindow true cfgA]).2.2
      _ "boom" rfl rfl⟩

/-- C6: the two mutations of update run in order (always-on-top first, then
fullscreen); when the window exists, the host accepts the first mutation
and rejects the second with error e, update returns that error string while
the always-on-top change remains applied and fullscreen keeps its old value
(no rollback). -/
theorem update_no_rollback (host : Host) (ws : List WebviewWindow)
    (config : PresentationWindowConfig) (w : WebviewWindow) (e : String)
    (hw : get_webview_window ws "presentation" = some w)
    (hsat : host.setAlwaysOnTopResult = none)
    (hsf : host.setFullscreenResult = some e) :
    (update_presentation_window host ws config).1 = .error e ∧
    get_webview_window (update_presentation_window host ws config).2
        "presentation"
      = some { w with always_on_top := config.always_on_top } := by
  have hu : update_presentation_window host ws config
      = (.error e, setWindowProp ws "presentation"
          (fun x => { x with always_on_top := config.always_on_top })) := by
    simp [update_presentation_window, hw, hsat, hsf]
  rw [hu]
  refine ⟨rfl, ?_⟩
  rw [get_set_aot, hw]
  rfl

/-- Witness for the C6 theorem at a concrete state and config. -/
theorem update_no_rollback_witness :
    (update_presentation_window hostFsFail
        [builtPresentationWindow true cfgA] cfgB).1 = .error "fs failed" ∧
    get_webview_window (update_presentation_window hostFsFail
        [builtPresentationWindow true cfgA] cfgB).2 "presentation"
      = some { builtPresentationWindow true cfgA with
                always_on_top := cfgB.always_on_top } :=
  update_no_rollback hostFsFail [builtPresentationWindow true cfgA] cfgB
    (builtPresentationWindow true cfgA) "fs failed" rfl rfl rfl

/-- C10: when the window exists and the host rejects the always-on-top
mutation with error e, update returns that error without attempting the
fullscreen mutation, leaving the whole state — hence the fullscreen flag —
unchanged. -/
theorem update_stops_after_first_failure (host : Host)
    (ws : List WebviewWindow) (config : PresentationWindowConfig)
    (w : WebviewWindow) (e : String)
    (hw : get_webview_window ws "presentation" = some w)
    (hsat : host.setAlwaysOnTopResult = some e) :
    update_presentation_window host ws config = (.error e, ws) := by
  simp [update_presentation_window, hw, hsat]

/-- Witness for the C10 theorem at a concrete state and config. -/
theorem update_stops_after_first_failure_witness :
    update_presentation_window hostAotFail
        [builtPresentationWindow true cfgA] cfgB
      = (.error "aot failed", [builtPresentationWindow true cfgA]) :=
  update_stops_after_first_failure hostAotFail
    [builtPresentationWindow true cfgA] cfgB
    (builtPresentationWindow true cfgA) "aot failed" rfl rfl

/-- C7: isOpen is a total boolean query returning true exactly when a
window labelled "presentation" exists; a result of success from open is
immediately observed by isOpen as true, and a result of success from close
is immediately observed as false. -/
theorem is_open_reflects_existence :
    (∀ ws : List WebviewWindow,
      is_presentation_window_open ws = true ↔
        ∃ w ∈ ws, w.label = "presentation") ∧
    (∀ (host : Host) (dbg : Bool) (ws : List WebviewWindow)
        (config : PresentationWindowConfig),
      (open_presentation_window host dbg ws config).1 = .ok () →
      is_presentation_window_open
        (open_presentation_window host dbg ws config).2 = true) ∧
    (∀ (host : Host) (ws : List WebviewWindow),
      (close_presentation_window host ws).1 = .ok () →
      is_presentation_window_open
        (close_presentation_window host ws).2 = false) := by
  refine ⟨?_, ?_, ?_⟩
  · intro ws
    simp [is_presentation_window_open, get_webview_window, List.find?_isSome]
  · intro host dbg ws config hok
    cases hfind : get_webview_window ws "presentation" with
    | some w =>
      simp [open_presentation_window, hfind] at hok
    | none =>
      cases hbuild : host.buildResult with
      | some e =>
        simp [open_presentation_window, hfind, hbuild] at hok
      | none =>
        simp only [open_presentation_window, hfind, hbuild]
        simp only [is_presentation_window_open, get_webview_window,
          List.find?_isSome]
        exact ⟨builtPresentationWindow dbg config, by simp,
          by simp [builtPresentationWindow]⟩
  · intro host ws hok
    cases hfind : get_webview_window ws "presentation" with
    | none =>
      simp [close_presentation_window, hfind] at hok
    | some w =>
      cases hc : host.closeResult with
      | some e =>
        simp [close_presentation_window, hfind, hc] at hok
      | none =>
        simp only [close_presentation_window, hfind, hc]
        simp [is_presentation_window_open, get_removeWindow]

/-- Witness for the C7 theorem at concrete states. -/
theorem is_open_reflects_existence_witness :
    is_presentation_window_open
        (open_presentation_window Host.ok true [] cfgA).2 = true ∧
    is_presentation_window_open
        (close_presentation_window Host.ok
          [builtPresentationWindow true cfgA]).2 = false :=
  ⟨is_open_reflects_existence.2.1 Host.ok true [] cfgA rfl,
    is_open_reflects_existence.2.2 Host.ok
      [builtPresentationWindow true cfgA] rfl⟩

/-- C8 counterexample: two configs that differ only in the background color
give identical open results and identical resulting states — the background
color is not carried into the created window, so open does not forward it
to the rendering layer. -/
theorem open_background_color_not_forwarded_cex :
    cfgA.background_color ≠ cfgB.background_color ∧
    open_presentation_window Host.ok true [] cfgA
      = open_presentation_window Host.ok true [] cfgB :=
  ⟨by decide, rfl⟩

/-- C8 amended: open accepts the background color in its config but does
not forward it anywhere — its result and the resulting state are
independent of that field, depending on the config only through
always-on-top and fullscreen. -/
theorem open_independent_of_background_color (host : Host) (dbg : Bool)
    (ws : List WebviewWindow) (c1 c2 : PresentationWindowConfig)
    (hat : c1.always_on_top = c2.always_on_top)
    (hfs : c1.fullscreen = c2.fullscreen) :
    open_presentation_window host dbg ws c1
      = open_presentation_window host dbg ws c2 := by
  simp only [open_presentation_window, builtPresentationWindow, hat, hfs]

/-- Witness for the amended C8 theorem at concrete configs. -/
theorem open_independent_of_background_color_witness :
    open_presentation_window Host.ok false [] cfgA
      = open_presentation_window Host.ok false [] cfgB :=
  open_independent_of_background_color Host.ok false [] cfgA cfgB rfl rfl
